import Mathlib

/-!
Verification development for the full-black-windows repository.

Part 1 embeds the display enumeration and targeting logic of
`fullscreen_black.py` (`get_monitors`, `cover_monitor`).

Part 2 embeds the process-supervisor logic of `black_controller.py`
(`ControllerApp.open_black`, `close_black`, `_start_polling`, `_poll`).

OS interactions (Win32 calls, `subprocess.Popen`, `proc.poll()`, Tk's
`root.after` scheduling) are abstracted into explicit environment records
whose fields record the outcome each OS call would report; the embedded
functions branch on those outcomes exactly as the Python code branches on
the corresponding return values.
-/

/-- Win32 RECT as filled in by `GetMonitorInfoW` (`fullscreen_black.py`,
class `RECT`). -/
structure RECT where
  left : Int
  top : Int
  right : Int
  bottom : Int
deriving DecidableEq, Repr

/-- One entry of the list built by `get_monitors`: the Python dict with keys
left/top/right/bottom/width/height/primary (`fullscreen_black.py` lines 54-62). -/
structure MonitorInfo where
  left : Int
  top : Int
  right : Int
  bottom : Int
  width : Int
  height : Int
  primary : Bool
deriving DecidableEq, Repr, Inhabited

/-- Outcomes of the OS calls made by `get_monitors`:
`enumOk` is the truthiness of the `EnumDisplayMonitors` return value;
`entries` records, for each invocation of the enumeration callback, the
`GetMonitorInfoW` outcome (`none` when that call reported failure and the
callback appended nothing, `some (rect, dwFlags)` otherwise);
`sysW`/`sysH` are `GetSystemMetrics(0)` and `GetSystemMetrics(1)`. -/
structure OSEnv where
  enumOk : Bool
  entries : List (Option (RECT × Nat))
  sysW : Int
  sysH : Int

/-- Dict built by the enumeration callback for one monitor
(`fullscreen_black.py` lines 52-62): width/height derived from the
rectangle, `primary` from `bool(dwFlags & 1)`. -/
def monitor_of_info (r : RECT) (flags : Nat) : MonitorInfo :=
  { left := r.left, top := r.top, right := r.right, bottom := r.bottom,
    width := r.right - r.left, height := r.bottom - r.top,
    primary := flags &&& 1 != 0 }

/-- The monitors gathered by the callbacks before `EnumDisplayMonitors`
returns: failed `GetMonitorInfoW` calls append nothing (line 50-51). -/
def enum_gathered (env : OSEnv) : List MonitorInfo :=
  env.entries.filterMap (fun e => e.map (fun rf => monitor_of_info rf.1 rf.2))

/-- The synthetic entry appended by the `GetSystemMetrics` fallback branch
(`fullscreen_black.py` line 70). -/
def synthetic_primary (env : OSEnv) : MonitorInfo :=
  { left := 0, top := 0, right := env.sysW, bottom := env.sysH,
    width := env.sysW, height := env.sysH, primary := true }

/-- Embedding of `get_monitors` (`fullscreen_black.py` lines 18-71): the
callback-gathered list, plus the synthetic fallback entry appended only when
the `EnumDisplayMonitors` call itself reports failure (line 66). -/
def get_monitors (env : OSEnv) : List MonitorInfo :=
  if env.enumOk then enum_gathered env
  else enum_gathered env ++ [synthetic_primary env]

/-- Observable outcome of `cover_monitor` up to window creation:
either `sys.exit(code)` after printing `msg`, or proceeding to create the
window on `monitor`, with `fellBack` recording whether the
"Requested monitor ... falling back to primary (0)." notice was printed. -/
inductive CoverResult where
  | exit (msg : String) (code : Nat)
  | window (monitor : MonitorInfo) (fellBack : Bool)
deriving DecidableEq, Repr

/-- The monitor-resolution step of `cover_monitor`
(`fullscreen_black.py` lines 76-84), factored over the monitor list it
receives from `get_monitors`: empty list exits with status 1; an index
outside `[0, len)` falls back to `monitors[0]` with a printed notice;
otherwise `monitors[monitor_index]` is used. -/
def resolveStep (monitor_index : Int) (monitors : List MonitorInfo) : CoverResult :=
  match monitors with
  | [] => .exit "No monitors detected." 1
  | m0 :: rest =>
    if monitor_index < 0 ∨ monitor_index ≥ ((m0 :: rest).length : Int) then
      .window m0 true
    else
      .window ((m0 :: rest).getD monitor_index.toNat m0) false

/-- Embedding of `cover_monitor` (`fullscreen_black.py` lines 74-84) up to
the point where a window is created: it enumerates monitors itself and runs
the resolution step on the result. -/
def cover_monitor (monitor_index : Int) (env : OSEnv) : CoverResult :=
  resolveStep monitor_index (get_monitors env)

/-- Concrete environment where `EnumDisplayMonitors` reports success but the
callbacks gathered nothing. -/
def envEnumOkEmpty : OSEnv :=
  { enumOk := true, entries := [], sysW := 1920, sysH := 1080 }

/-- Concrete environment where `EnumDisplayMonitors` reports failure. -/
def envEnumFail : OSEnv :=
  { enumOk := false, entries := [], sysW := 1920, sysH := 1080 }

/-- Sample monitor rectangle used in witnesses. -/
def monA : MonitorInfo :=
  { left := 0, top := 0, right := 1920, bottom := 1080,
    width := 1920, height := 1080, primary := true }

/-- Second sample monitor rectangle used in witnesses. -/
def monB : MonitorInfo :=
  { left := 1920, top := 0, right := 3840, bottom := 1080,
    width := 1920, height := 1080, primary := false }

/-- Child process handle held by the controller (`self.proc`, a
`subprocess.Popen` object carrying its pid). -/
structure PyProc where
  pid : Nat
deriving DecidableEq, Repr

/-- Observable fields of `ControllerApp` relevant to the supervisor:
`proc` is `self.proc` (the ChildHandle), `polling` is `self._polling`,
`job` is `self._job` (the KillGroupHandle value, a nonzero Win32 handle when
held), `status` is the text of `self.status_var`, and `pendingPoll` records
whether a `root.after(500, self._poll)` callback is currently queued. -/
structure CtrlState where
  proc : Option PyProc
  polling : Bool
  job : Option Nat
  status : String
  pendingPoll : Bool
deriving DecidableEq, Repr

/-- State after `ControllerApp.__init__` (`black_controller.py` lines 191-193):
no child, not polling, no job handle, status "Status: closed". -/
def initState : CtrlState :=
  { proc := none, polling := false, job := none,
    status := "Status: closed", pendingPoll := false }

/-- Modelled from the spec: `self._clear_proc()` is called by `close_black`
(line 322) and `_poll` (line 340) but its definition is missing from the
sources. Per the spec, stop and natural-exit detection release the
ChildHandle and return the user-visible status to closed ("state returns to
Idle", "the status returning to closed"); the KillGroupHandle is released by
a separate, explicit step of `close_black` (lines 324-329) and the polling
flag is likewise managed by the callers, so `_clear_proc` itself touches
neither. -/
def clear_proc (s : CtrlState) : CtrlState :=
  { s with proc := none, status := "Status: closed" }

/-- Status text set while the child runs (`black_controller.py`
lines 301 and 345). -/
def running_status (pid : Nat) : String :=
  "Status: running (pid=" ++ toString pid ++ ")"

/-- Embedding of `ControllerApp._poll` (`black_controller.py` lines 337-346),
run when a queued tick fires (or called directly by `_start_polling`).
`exitCode` is what `self.proc.poll()` would return at this tick; it is
consulted only when a child is held, as in the source. On a detected exit the
handler clears the child, stops polling and does not re-schedule; otherwise
the running status is refreshed and `root.after` queues the next tick. With
no child held, the tick falls through to the re-scheduling line. -/
def poll (exitCode : Option Int) (s : CtrlState) : CtrlState :=
  match s.proc with
  | some p =>
    match exitCode with
    | some _ => { clear_proc s with polling := false, pendingPoll := false }
    | none => { s with status := running_status p.pid, pendingPoll := true }
  | none => { s with pendingPoll := true }

/-- Embedding of `ControllerApp._start_polling` (`black_controller.py`
lines 331-335): a no-op when already polling, otherwise sets the flag and
runs `_poll` once directly; `firstPoll` is what `self.proc.poll()` would
return at that immediate call. -/
def start_polling (firstPoll : Option Int) (s : CtrlState) : CtrlState :=
  if s.polling then s
  else poll firstPoll { s with polling := true }

/-- Outcomes of the OS calls made by `open_black`:
`popen` is the `subprocess.Popen` outcome (pid, or the exception text);
`haveJobWin` is `_have_job and sys.platform == win32`;
`jobRaises` models an exception anywhere inside the Job-Object try-block
(caught at line 292); `createJobRet` is the `CreateJobObjectW` return value
(0 = NULL = failure); `setInfoOk` is the truthiness of
`SetInformationJobObject`; `openProcRet` is the `OpenProcess` return value
(0 = failure); `assignOk` is the truthiness of `AssignProcessToJobObject`;
`firstPoll` is the `proc.poll()` result at the immediate `_poll` call made
by `_start_polling`. -/
structure LaunchEnv where
  popen : Except String Nat
  haveJobWin : Bool
  jobRaises : Bool
  createJobRet : Nat
  setInfoOk : Bool
  openProcRet : Nat
  assignOk : Bool
  firstPoll : Option Int

/-- The Job-Object attachment block of `open_black` (`black_controller.py`
lines 232-295): `self._job` is assigned only when creation, configuration,
process-open and assignment all succeed; every failure path closes what it
opened and leaves `self._job` untouched, and any exception in the block is
caught and absorbed. -/
def attach_job (env : LaunchEnv) (s : CtrlState) : CtrlState :=
  if env.haveJobWin then
    if env.jobRaises then s
    else if env.createJobRet ≠ 0 then
      if env.setInfoOk then
        if env.openProcRet ≠ 0 then
          if env.assignOk then { s with job := some env.createJobRet }
          else s
        else s
      else s
    else s
  else s

/-- Embedding of `ControllerApp.open_black` (`black_controller.py`
lines 219-304): an immediate return when a child is already held; on a
`Popen` failure the exception text is surfaced in the status, `self.proc`
is reset to None and nothing else changes; on success the child handle is
recorded, the Job-Object guard is attached best-effort, the running status
is set and polling starts. -/
def open_black (env : LaunchEnv) (s : CtrlState) : CtrlState :=
  if s.proc.isSome then s
  else
    match env.popen with
    | .error e => { s with status := "Failed to start: " ++ e, proc := none }
    | .ok pid =>
      let s1 := attach_job env { s with proc := some ⟨pid⟩ }
      let s2 := { s1 with status := running_status pid }
      start_polling env.firstPoll s2

/-- Observable process-control actions taken by `close_black`: the
`terminate()` request, each `time.sleep(0.1)` of the grace loop, and the
final `kill()` escalation. -/
inductive StopAction where
  | terminate
  | sleep
  | kill
deriving DecidableEq, Repr

/-- The grace-wait loop of `close_black` (`black_controller.py`
lines 312-316): up to `fuel` iterations, each calling `self.proc.poll()`
(call number `i`) and breaking on a non-None result, else sleeping 0.1 s.
Returns the number of sleeps performed and the index of the next
`poll()` call (the final liveness check at line 317). -/
def closeWait (polls : Nat → Option Int) : Nat → Nat → Nat × Nat
  | i, 0 => (0, i)
  | i, fuel + 1 =>
    match polls i with
    | some _ => (0, i + 1)
    | none =>
      let r := closeWait polls (i + 1) fuel
      (r.1 + 1, r.2)

/-- Embedding of `ControllerApp.close_black` (`black_controller.py`
lines 306-329). `polls` gives the result of each successive
`self.proc.poll()` call; `terminateRaises` models an exception from
`terminate()` (caught at line 319, skipping the wait and the kill).
A held (truthy) job handle is always closed afterwards. Returns the new
state together with the list of process-control actions performed. -/
def close_black (polls : Nat → Option Int) (terminateRaises : Bool)
    (s : CtrlState) : CtrlState × List StopAction :=
  match s.proc with
  | none => (s, [])
  | some _ =>
    let acts :=
      if terminateRaises then [StopAction.terminate]
      else
        let w := closeWait polls 0 10
        StopAction.terminate ::
          (List.replicate w.1 StopAction.sleep ++
            (if (polls w.2).isNone then [StopAction.kill] else []))
    let s1 := clear_proc s
    let s2 :=
      match s1.job with
      | some h => if h ≠ 0 then { s1 with job := none } else s1
      | none => s1
    (s2, acts)

/-- Reachable controller states: from the initial state via button-driven
`open_black` and `close_black` calls under arbitrary OS outcomes, and via
queued `_poll` ticks (a tick can fire only while one is queued). -/
inductive Reach : CtrlState → Prop where
  | init : Reach initState
  | start (env : LaunchEnv) {s : CtrlState} :
      Reach s → Reach (open_black env s)
  | stop (polls : Nat → Option Int) (tr : Bool) {s : CtrlState} :
      Reach s → Reach (close_black polls tr s).1
  | tick (e : Option Int) {s : CtrlState} :
      Reach s → s.pendingPoll = true → Reach (poll e s)

/-- Launch environment where everything, including the Job-Object guard,
succeeds: pid 42, job handle 7. -/
def envJobOk : LaunchEnv :=
  { popen := .ok 42, haveJobWin := true, jobRaises := false,
    createJobRet := 7, setInfoOk := true, openProcRet := 9,
    assignOk := true, firstPoll := none }

/-- Running state reached by a fully successful `open_black` from the
initial state: child pid 42 held, job handle 7 held, polling. -/
def sRun : CtrlState := open_black envJobOk initState

/-- State after the liveness poller detects that the child of `sRun`
exited on its own (exit code 0). -/
def sAfterExit : CtrlState := poll (some 0) sRun

/-- State after a user-initiated `close_black` on `sRun` (child never
exits during the grace loop, so it is force-killed). -/
def sStopped : CtrlState := (close_black (fun _ => none) false sRun).1

/-- C1 counterexample: in the environment where `EnumDisplayMonitors`
reports success but the callbacks gathered no entries, `get_monitors`
returns the empty list — contradicting the claim that the monitor
enumeration never returns an empty sequence in every environment,
including one whose enumeration call yields no entries. -/
theorem C1_enumeration_cex : get_monitors envEnumOkEmpty = [] := rfl

/-- C1 (amended): whenever the `EnumDisplayMonitors` call itself reports
failure, `get_monitors` appends the single synthetic entry covering the
reported primary display area to whatever was gathered, and hence returns
a non-empty sequence; only when the call reports success can the result be
empty. -/
theorem C1_enumeration_fallback (env : OSEnv) (h : env.enumOk = false) :
    get_monitors env = enum_gathered env ++ [synthetic_primary env] ∧
      get_monitors env ≠ [] := by
  constructor
  · simp [get_monitors, h]
  · simp [get_monitors, h]

/-- Witness for C1 (amended) at the concrete failing-enumeration
environment. -/
theorem C1_enumeration_fallback_witness :
    get_monitors envEnumFail = enum_gathered envEnumFail ++ [synthetic_primary envEnumFail] ∧
      get_monitors envEnumFail ≠ [] :=
  C1_enumeration_fallback envEnumFail rfl

/-- C5: on a non-empty monitor list, the resolution step of `cover_monitor`
returns `monitors[i]` without a fallback notice when `0 ≤ i < N`, and
returns `monitors[0]` with the fallback notice for every `i` outside
`[0, N)`. -/
theorem C5_resolve_policy (i : Int) (ms : List MonitorInfo) (hne : ms ≠ []) :
    (0 ≤ i → i < (ms.length : Int) →
        resolveStep i ms = .window (ms.getD i.toNat default) false) ∧
    ((i < 0 ∨ (ms.length : Int) ≤ i) →
        resolveStep i ms = .window (ms.headD default) true) := by
  match ms with
  | [] => exact absurd rfl hne
  | m0 :: rest =>
    constructor
    · intro h0 hlt
      have hcond : ¬ (i < 0 ∨ i ≥ (((m0 :: rest).length : Nat) : Int)) := by
        push_neg
        exact ⟨by omega, by omega⟩
      have hidx : i.toNat < (m0 :: rest).length := by omega
      simp only [resolveStep, if_neg hcond]
      rw [List.getD_eq_getElem _ _ hidx, List.getD_eq_getElem _ _ hidx]
    · intro hout
      have hcond : i < 0 ∨ i ≥ (((m0 :: rest).length : Nat) : Int) := by
        rcases hout with h | h
        · exact Or.inl h
        · exact Or.inr (by omega)
      simp only [resolveStep, if_pos hcond]
      rfl

/-- Witness for C5 on a concrete two-monitor list: index 1 resolves to the
second monitor, index 5 falls back to the first with the notice. -/
theorem C5_resolve_policy_witness :
    resolveStep 1 [monA, monB] = .window ([monA, monB].getD (1 : Int).toNat default) false ∧
    resolveStep 5 [monA, monB] = .window ([monA, monB].headD default) true :=
  ⟨(C5_resolve_policy 1 [monA, monB] (by simp)).1 (by decide) (by decide),
   (C5_resolve_policy 5 [monA, monB] (by simp)).2 (by decide)⟩

/-- C10: whenever the enumeration result handed to `cover_monitor` is the
empty list, `cover_monitor` prints "No monitors detected." and terminates
the process with exit status 1, creating no window and using no fallback
monitor. -/
theorem C10_empty_monitors_exit (i : Int) (env : OSEnv)
    (h : get_monitors env = []) :
    cover_monitor i env = .exit "No monitors detected." 1 := by
  unfold cover_monitor
  rw [h]
  rfl

/-- Witness for C10 at the concrete environment whose enumeration succeeds
with zero gathered entries. -/
theorem C10_empty_monitors_exit_witness :
    cover_monitor 1 envEnumOkEmpty = .exit "No monitors detected." 1 :=
  C10_empty_monitors_exit 1 envEnumOkEmpty rfl

/-- Launch environment whose `subprocess.Popen` call raises. -/
def envPopenFail : LaunchEnv :=
  { popen := .error "boom", haveJobWin := true, jobRaises := false,
    createJobRet := 7, setInfoOk := true, openProcRet := 9,
    assignOk := true, firstPoll := none }

/-- C6: the state-machine guards are idempotent no-ops — `open_black` with
a child already held returns with the state unchanged (no second child is
spawned), and `close_black` with no child held returns with the state
unchanged and performs no process-control action. -/
theorem C6_idempotent_guards (env : LaunchEnv) (polls : Nat → Option Int)
    (tr : Bool) (s t : CtrlState)
    (hs : s.proc.isSome = true) (ht : t.proc = none) :
    open_black env s = s ∧ close_black polls tr t = (t, []) := by
  constructor
  · simp [open_black, hs]
  · simp [close_black, ht]

/-- Witness for C6: a second `open_black` on the running state is the
identity, and `close_black` on the initial (idle) state is the identity
with no actions. -/
theorem C6_idempotent_guards_witness :
    open_black envJobOk sRun = sRun ∧
      close_black (fun _ => none) false initState = (initState, []) :=
  C6_idempotent_guards envJobOk (fun _ => none) false sRun initState
    (by decide) (by decide)

/-- C7: when child-process creation fails in `open_black` from the Idle
state (no child, no job handle), the exception text is surfaced in the
status message and nothing else changes: no ChildHandle and no
KillGroupHandle are retained and polling state is untouched. -/
theorem C7_launch_failure_atomic (env : LaunchEnv) (s : CtrlState)
    (e : String) (hp : s.proc = none) (hj : s.job = none)
    (he : env.popen = .error e) :
    (open_black env s).proc = none ∧ (open_black env s).job = none ∧
      (open_black env s).status = "Failed to start: " ++ e ∧
      (open_black env s).polling = s.polling ∧
      (open_black env s).pendingPoll = s.pendingPoll := by
  simp [open_black, hp, he, hj]

/-- Witness for C7: a failing launch from the initial state surfaces the
exception text and retains no handles. -/
theorem C7_launch_failure_atomic_witness :
    (open_black envPopenFail initState).proc = none ∧
      (open_black envPopenFail initState).job = none ∧
      (open_black envPopenFail initState).status = "Failed to start: " ++ "boom" ∧
      (open_black envPopenFail initState).polling = initState.polling ∧
      (open_black envPopenFail initState).pendingPoll = initState.pendingPoll :=
  C7_launch_failure_atomic envPopenFail initState "boom" rfl rfl rfl

/-- Every failure of the Job-Object block leaves the controller state
untouched: an exception in the block, a NULL job handle, a failed
`SetInformationJobObject`, a NULL `OpenProcess` result, or a failed
`AssignProcessToJobObject` all fall through without assigning `self._job`. -/
lemma attach_job_fail (env : LaunchEnv) (t : CtrlState)
    (hfail : env.jobRaises = true ∨ env.createJobRet = 0 ∨
      env.setInfoOk = false ∨ env.openProcRet = 0 ∨ env.assignOk = false) :
    attach_job env t = t := by
  unfold attach_job
  rcases hfail with h | h | h | h | h <;> simp [h]

/-- Launch environment where the child starts but `CreateJobObjectW`
returns NULL. -/
def envGuardFail : LaunchEnv :=
  { popen := .ok 43, haveJobWin := true, jobRaises := false,
    createJobRet := 0, setInfoOk := true, openProcRet := 9,
    assignOk := true, firstPoll := none }

/-- C8: when the child process starts successfully but the kill-group
(Job Object) creation, configuration, process-open or assignment fails,
`open_black` from the Idle, not-yet-polling state absorbs the failure — no
KillGroupHandle is retained — and the session still transitions to Running:
the child handle is recorded, the running status is shown and polling has
begun. -/
theorem C8_guard_failure_absorbed (env : LaunchEnv) (s : CtrlState)
    (pid : Nat) (hp : s.proc = none) (hj : s.job = none)
    (hpol : s.polling = false) (hok : env.popen = .ok pid)
    (hfp : env.firstPoll = none)
    (hfail : env.jobRaises = true ∨ env.createJobRet = 0 ∨
      env.setInfoOk = false ∨ env.openProcRet = 0 ∨ env.assignOk = false) :
    (open_black env s).proc = some ⟨pid⟩ ∧ (open_black env s).job = none ∧
      (open_black env s).polling = true ∧
      (open_black env s).pendingPoll = true ∧
      (open_black env s).status = running_status pid := by
  obtain ⟨sp, spol, sj, sst, spend⟩ := s
  simp only at hp hj hpol
  subst hp hj hpol
  have ha := attach_job_fail env ⟨some ⟨pid⟩, false, none, sst, spend⟩ hfail
  simp [open_black, hok, ha, start_polling, poll, hfp]

/-- Witness for C8: launch from the initial state with a NULL
`CreateJobObjectW`: the session is Running with pid 43 and no job handle. -/
theorem C8_guard_failure_absorbed_witness :
    (open_black envGuardFail initState).proc = some ⟨43⟩ ∧
      (open_black envGuardFail initState).job = none ∧
      (open_black envGuardFail initState).polling = true ∧
      (open_black envGuardFail initState).pendingPoll = true ∧
      (open_black envGuardFail initState).status = running_status 43 :=
  C8_guard_failure_absorbed envGuardFail initState 43 rfl rfl rfl rfl rfl
    (Or.inr (Or.inl rfl))

/-- The grace-wait loop sleeps at most `fuel` times. -/
lemma closeWait_fst_le (polls : Nat → Option Int) :
    ∀ fuel i, (closeWait polls i fuel).1 ≤ fuel := by
  intro fuel
  induction fuel with
  | zero => intro i; simp [closeWait]
  | succ n ih =>
    intro i
    unfold closeWait
    cases h : polls i with
    | some c => simp
    | none =>
      simp only
      have := ih (i + 1)
      omega

/-- C4: `close_black` from a Running state (with either no job handle or a
truthy one) requests graceful termination, sleeps in 0.1-second increments
at most 10 times (a grace period of about 1 second), force-kills exactly
when the post-wait liveness check still reports the child alive, releases
the KillGroupHandle, and leaves the Idle state: no child, no job handle,
status closed. -/
theorem C4_stop_sequence (s : CtrlState) (polls : Nat → Option Int)
    (p : PyProc) (hp : s.proc = some p) (hj : s.job ≠ some 0) :
    ((close_black polls false s).1.proc = none ∧
      (close_black polls false s).1.job = none ∧
      (close_black polls false s).1.status = "Status: closed") ∧
    (close_black polls false s).2 =
      StopAction.terminate ::
        (List.replicate (closeWait polls 0 10).1 StopAction.sleep ++
          (if (polls (closeWait polls 0 10).2).isNone then [StopAction.kill]
            else [])) ∧
    (closeWait polls 0 10).1 ≤ 10 := by
  refine ⟨⟨?_, ?_, ?_⟩, ?_, closeWait_fst_le polls 10 0⟩
  · simp [close_black, hp, clear_proc]
    cases hjob : s.job with
    | none => simp
    | some h =>
      have hne : h ≠ 0 := fun h0 => hj (by rw [hjob, h0])
      simp [hne]
  · cases hjob : s.job with
    | none => simp [close_black, hp, clear_proc, hjob]
    | some h =>
      have hne : h ≠ 0 := fun h0 => hj (by rw [hjob, h0])
      simp [close_black, hp, clear_proc, hjob, hne]
  · cases hjob : s.job with
    | none => simp [close_black, hp, clear_proc, hjob]
    | some h =>
      have hne : h ≠ 0 := fun h0 => hj (by rw [hjob, h0])
      simp [close_black, hp, clear_proc, hjob, hne]
  · simp [close_black, hp]

/-- Witness for C4: stopping the running session whose child never exits
during the grace loop performs terminate, ten sleeps and a kill, and ends
Idle with both handles released. -/
theorem C4_stop_sequence_witness :
    (((close_black (fun _ => none) false sRun).1.proc = none ∧
      (close_black (fun _ => none) false sRun).1.job = none ∧
      (close_black (fun _ => none) false sRun).1.status = "Status: closed") ∧
    (close_black (fun _ => none) false sRun).2 =
      StopAction.terminate ::
        (List.replicate (closeWait (fun _ => none) 0 10).1 StopAction.sleep ++
          (if ((fun _ => (none : Option Int)) (closeWait (fun _ => (none : Option Int)) 0 10).2).isNone
            then [StopAction.kill] else [])) ∧
    (closeWait (fun _ => (none : Option Int)) 0 10).1 ≤ 10) :=
  C4_stop_sequence sRun (fun _ => none) ⟨42⟩ (by decide) (by decide)

/-- C2 counterexample: the pairing invariant fails on a reachable state.
From the initial state, a fully successful `open_black` holds child pid 42
and job handle 7; the queued poller tick then detects a natural exit and
releases the ChildHandle, but the KillGroupHandle is still held — so it is
not true that in every reachable state the KillGroupHandle is only held
together with the ChildHandle. -/
theorem C2_pairing_cex :
    ¬ (∀ s : CtrlState, Reach s → s.job ≠ none → s.proc ≠ none) := by
  intro hinv
  have hrun : Reach sRun := Reach.start envJobOk Reach.init
  have hr : Reach sAfterExit :=
    Reach.tick (some 0) hrun (by decide)
  exact hinv sAfterExit hr (by decide) (by decide)

/-- C2 (amended): `close_black` from a Running state destroys the
ChildHandle and the KillGroupHandle together, but the liveness poller never
releases the KillGroupHandle — its natural-exit handling releases only the
ChildHandle, so after a natural exit the KillGroupHandle can remain held
without the ChildHandle. -/
theorem C2_pairing_amended (s : CtrlState) (polls : Nat → Option Int)
    (tr : Bool) (e : Option Int) (p : PyProc)
    (hp : s.proc = some p) (hj : s.job ≠ some 0) :
    ((close_black polls tr s).1.proc = none ∧
      (close_black polls tr s).1.job = none) ∧
    (poll e s).job = s.job := by
  refine ⟨⟨?_, ?_⟩, ?_⟩
  · simp [close_black, hp, clear_proc]
    cases hjob : s.job with
    | none => simp
    | some h =>
      have hne : h ≠ 0 := fun h0 => hj (by rw [hjob, h0])
      simp [hne]
  · cases hjob : s.job with
    | none => simp [close_black, hp, clear_proc, hjob]
    | some h =>
      have hne : h ≠ 0 := fun h0 => hj (by rw [hjob, h0])
      simp [close_black, hp, clear_proc, hjob, hne]
  · cases e with
    | none => simp [poll, hp]
    | some c => simp [poll, hp, clear_proc]

/-- Witness for C2 (amended) on the concrete running session: stopping
releases both handles, while a natural-exit tick leaves the job handle
exactly as it was. -/
theorem C2_pairing_amended_witness :
    (((close_black (fun _ => none) true sRun).1.proc = none ∧
      (close_black (fun _ => none) true sRun).1.job = none) ∧
    (poll (some 0) sRun).job = sRun.job) :=
  C2_pairing_amended sRun (fun _ => none) true (some 0) ⟨42⟩
    (by decide) (by decide)

/-- C3 counterexample: after the poller detects the natural exit of the
child of the fully-launched session, the ChildHandle is released but the
KillGroupHandle (handle 7) is still held, whereas the `stop()` sequence on
the same session releases it — the poller does not perform the same
handle-release sequence as `stop()` and does not leave all handles
released. -/
theorem C3_natural_exit_cex :
    sAfterExit.proc = none ∧ sAfterExit.job = some 7 ∧
      (close_black (fun _ => some 0) false sRun).1.job = none := by
  decide

/-- C3 (amended): when the child of a Running session exits on its own, the
detecting poller tick releases the ChildHandle, stops the polling loop,
returns the status to closed and schedules no further tick — but it leaves
the KillGroupHandle untouched, unlike `stop()`. -/
theorem C3_natural_exit_amended (s : CtrlState) (p : PyProc) (c : Int)
    (hp : s.proc = some p) :
    poll (some c) s =
      { s with
        proc := none, status := "Status: closed",
        polling := false, pendingPoll := false } := by
  obtain ⟨sp, spol, sj, sst, spend⟩ := s
  simp only at hp
  subst hp
  rfl

/-- Witness for C3 (amended) at the concrete running session. -/
theorem C3_natural_exit_amended_witness :
    poll (some 0) sRun =
      { sRun with
        proc := none, status := "Status: closed",
        polling := false, pendingPoll := false } :=
  C3_natural_exit_amended sRun ⟨42⟩ 0 (by decide)

/-- C9 counterexample: after `close_black` tears the session down, the
supervisor has left Running (no child is held), yet the poller is not
stopped — a tick is still queued, and the tick that then fires re-queues
another one instead of halting the chain. -/
theorem C9_poller_cex :
    sStopped.proc = none ∧ sStopped.polling = true ∧
      sStopped.pendingPoll = true ∧
      (poll none sStopped).pendingPoll = true := by
  decide

/-- C9 (amended): a poller tick that fires when no child is held takes no
action on any handle and changes nothing except re-queueing itself; the
polling chain is genuinely cancelled only by the natural-exit detection
path, not by `stop()`. -/
theorem C9_late_tick_noop (s : CtrlState) (e : Option Int)
    (hp : s.proc = none) :
    poll e s = { s with pendingPoll := true } := by
  obtain ⟨sp, spol, sj, sst, spend⟩ := s
  simp only at hp
  subst hp
  rfl

/-- Witness for C9 (amended): the tick that fires after the stop of the
concrete session only re-queues itself. -/
theorem C9_late_tick_noop_witness :
    poll none sStopped = { sStopped with pendingPoll := true } :=
  C9_late_tick_noop sStopped none (by decide)
